import Mathlib

/-!
Shallow embedding of `helper_func.py` (COVID-19 exploratory helpers).

The file models the four helpers of the repository — `progressbar`,
`data_by_region`, `plot_smooth` and `mad` — closely enough to settle the
behavioural claims about them.  Machine floats produced by the pandas/numpy
code paths are modelled as rationals extended with NaN (and, where division
by zero can occur, with the two infinities); Python exceptions are modelled
with `Except String`.
-/

namespace HelperFunc

/-! ### Float model for `mad`

`mad` only ever meets finite data and NaN (no division happens there), so a
numpy float is modelled as `Option ℚ`, with `none` playing the role of NaN.
-/

/-- A numpy float as seen by `mad`: a finite value (`some q`) or NaN (`none`). -/
abbrev NFloat := Option ℚ

/-- NaN-propagating subtraction (numpy elementwise `-`). -/
def nfSub : NFloat → NFloat → NFloat
  | some a, some b => some (a - b)
  | _, _ => none

/-- NaN-propagating absolute value (`np.abs`). -/
def nfAbs : NFloat → NFloat :=
  Option.map (fun q => |q|)

/-- Median of a list of rationals as `np.median` computes it on NaN-free,
nonempty data: sort ascending, take the middle element when the length is odd,
the mean of the two middle elements when it is even.  (On the empty list this
returns a junk value; `npMedian` guards that case.) -/
def medianQ (l : List ℚ) : ℚ :=
  let s := l.insertionSort (· ≤ ·)
  if l.length % 2 = 1 then s.getD (l.length / 2) 0
  else (s.getD (l.length / 2 - 1) 0 + s.getD (l.length / 2) 0) / 2

/-- `np.median`: NaN when the data is empty or contains a NaN (numpy warns and
propagates NaN in both cases), otherwise the median of the values. -/
def npMedian (l : List NFloat) : NFloat :=
  if l.isEmpty ∨ l.any Option.isNone then none
  else some (medianQ (l.filterMap id))

/-- `np.ma.array(arr).compressed()` from `mad` (src line 109).  `np.ma.array`
called without a mask yields `mask = nomask`, so `compressed()` returns every
entry unchanged — NaNs included: masked arrays do not treat NaN specially
(that would need `np.ma.masked_invalid`). -/
def ma_compressed (l : List NFloat) : List NFloat := l

/-- `mad` (src lines 107-111): run the data through
`np.ma.array(...).compressed()`, take the median, and return the median of the
absolute deviations from it. -/
def mad (arr : List NFloat) : NFloat :=
  let arr2 := ma_compressed arr
  let med := npMedian arr2
  npMedian (arr2.map (fun v => nfAbs (nfSub v med)))

/-! ### Lemmas about the median machinery -/

theorem filterMap_id_map_some (l : List ℚ) : (l.map some).filterMap id = l := by
  induction l with
  | nil => rfl
  | cons x xs ih => simp [ih]

theorem npMedian_map_some {l : List ℚ} (h : l ≠ []) :
    npMedian (l.map some) = some (medianQ l) := by
  simp [npMedian, filterMap_id_map_some, h]

theorem mad_map_some {l : List ℚ} (h : l ≠ []) :
    mad (l.map some) = some (medianQ (l.map (fun x => |x - medianQ l|))) := by
  show npMedian ((ma_compressed (l.map some)).map
      (fun v => nfAbs (nfSub v (npMedian (ma_compressed (l.map some)))))) = _
  unfold ma_compressed
  rw [npMedian_map_some h]
  have hmap : (l.map some).map (fun v => nfAbs (nfSub v (some (medianQ l))))
      = (l.map (fun x => |x - medianQ l|)).map some := by
    simp [List.map_map, nfSub, nfAbs, Function.comp]
  rw [hmap, npMedian_map_some (by simpa using h)]

theorem medianQ_nonneg {l : List ℚ} (hpos : ∀ a ∈ l, 0 ≤ a) : 0 ≤ medianQ l := by
  have hg : ∀ i : ℕ, 0 ≤ (l.insertionSort (· ≤ ·)).getD i 0 := by
    intro i
    by_cases hi : i < (l.insertionSort (· ≤ ·)).length
    · rw [List.getD_eq_getElem _ _ hi]
      exact hpos _ ((List.mem_insertionSort _).mp (List.getElem_mem hi))
    · rw [List.getD_eq_default _ _ (le_of_not_lt hi)]
  unfold medianQ
  dsimp only
  split
  · exact hg _
  · exact div_nonneg (add_nonneg (hg _) (hg _)) (by norm_num)

theorem insertionSort_map_add (l : List ℚ) (c : ℚ) :
    (l.insertionSort (· ≤ ·)).map (· + c) = (l.map (· + c)).insertionSort (· ≤ ·) :=
  List.map_insertionSort _ _ _ l (fun a _ b _ => by simp)

theorem getD_map_add (s : List ℚ) (c : ℚ) (i : ℕ) (hi : i < s.length) :
    (s.map (· + c)).getD i 0 = s.getD i 0 + c := by
  rw [List.getD_eq_getElem _ _ (by simpa using hi), List.getD_eq_getElem _ _ hi,
    List.getElem_map]

theorem medianQ_map_add (l : List ℚ) (c : ℚ) (h : l ≠ []) :
    medianQ (l.map (· + c)) = medianQ l + c := by
  have hlen : 0 < l.length := List.length_pos.mpr h
  have hs : (l.insertionSort (· ≤ ·)).length = l.length := List.length_insertionSort _ _
  unfold medianQ
  rw [← insertionSort_map_add, List.length_map]
  by_cases hp : l.length % 2 = 1
  · rw [if_pos hp, if_pos hp, getD_map_add _ _ _ (by omega)]
  · rw [if_neg hp, if_neg hp, getD_map_add _ _ _ (by omega), getD_map_add _ _ _ (by omega)]
    ring

/-- C5: the spec says `mad` first excludes NaN entries, but
`np.ma.array(arr).compressed()` sets no mask and removes nothing, so a NaN
poisons both medians: `mad [1, NaN, 2]` is NaN while `mad [1, 2] = 1/2`.
This contradicts the source's own comment "a (compressed) masked array is a
quick way to avoid NaNs" (src line 109). -/
theorem mad_does_not_exclude_nan :
    mad [some 1, none, some 2] = none ∧
    mad [some 1, some 2] = some (1/2) ∧
    mad [some 1, none, some 2] ≠ mad [some 1, some 2] := by
  have h1 : mad [some 1, none, some 2] = none := by decide
  have h2 : mad [some 1, some 2] = some (1/2) := by
    norm_num [mad, ma_compressed, npMedian, medianQ, nfSub, nfAbs,
      List.insertionSort, List.orderedInsert, List.getD, List.filterMap_cons]
  exact ⟨h1, h2, by rw [h1, h2]; simp⟩

/-- C6: on a nonempty NaN-free sequence, `mad` returns exactly the median of
the absolute deviations from the median, and that value is non-negative. -/
theorem mad_eq_median_absdev (xs : List ℚ) (h : xs ≠ []) :
    mad (xs.map some) = some (medianQ (xs.map (fun x => |x - medianQ xs|))) ∧
    0 ≤ medianQ (xs.map (fun x => |x - medianQ xs|)) := by
  refine ⟨mad_map_some h, medianQ_nonneg ?_⟩
  intro a ha
  obtain ⟨x, _, rfl⟩ := List.mem_map.mp ha
  exact abs_nonneg _

/-- Witness for C6 at the concrete sequence [1, 2]. -/
theorem mad_eq_median_absdev_witness :
    mad ([1, 2].map some) = some (medianQ ([1, 2].map (fun x => |x - medianQ [1, 2]|))) ∧
    0 ≤ medianQ ([1, 2].map (fun x => |x - medianQ [1, 2]|)) :=
  mad_eq_median_absdev [1, 2] (by simp)

/-- C10: `mad` is translation-invariant on NaN-free data — adding a constant
to every entry leaves the median absolute deviation unchanged. -/
theorem mad_translation_invariant (xs : List ℚ) (c : ℚ) :
    mad ((xs.map (· + c)).map some) = mad (xs.map some) := by
  rcases eq_or_ne xs [] with rfl | h
  · rfl
  · rw [mad_map_some (by simpa using h), mad_map_some h, medianQ_map_add _ _ h,
      List.map_map]
    congr 2
    apply List.map_congr_left
    intro x _
    simp [Function.comp, add_sub_add_right_eq_sub]

/-! ### `progressbar` (src lines 7-27)

The generator is modelled fully iterated: the result is the list of yielded
items paired with the list of strings written to `file`, in order, or the
exception the generator raises.  The Python parameter `prefix` is a reserved
word in Lean and is rendered `pre`.
-/

/-- The string written by one call of the inner `show(j)` (src lines 18-21)
when `count ≠ 0`.  Python's `int()` of these non-negative quotients is floor
division, i.e. `Nat` division. -/
def show_str (pre : String) (size count j : ℕ) : String :=
  pre ++ "[" ++ String.mk (List.replicate (size * j / count) '#')
    ++ String.mk (List.replicate (size - size * j / count) '.')
    ++ "] " ++ toString (100 * j / count) ++ "%\r"

/-- One call of `show(j)`: the write it performs, or the `ZeroDivisionError`
that `size*j/count` raises when the iterable was empty. -/
def show_write (pre : String) (size count j : ℕ) : Except String String :=
  if count = 0 then .error "ZeroDivisionError: division by zero"
  else .ok (show_str pre size count j)

/-- The `for i, item in enumerate(iterable)` loop of `progressbar`
(src lines 23-27): each remaining item is yielded and followed by `show(i+1)`;
after the loop the final `"\n"` is written. -/
def progressbar_loop {α : Type} (pre : String) (size count : ℕ) :
    ℕ → List α → Except String (List α × List String)
  | _, [] => .ok ([], ["\n"])
  | i, x :: rest => do
    let w ← show_write pre size count (i + 1)
    let (ys, ws) ← progressbar_loop pre size count (i + 1) rest
    .ok (x :: ys, w :: ws)

/-- `progressbar` (src lines 7-27), fully iterated: `count = len(iterable)`,
one initial `show(0)`, then the yield/`show(i+1)` loop and the closing
newline. -/
def progressbar {α : Type} (iterable : List α) (pre : String) (size : ℕ) :
    Except String (List α × List String) := do
  let count := iterable.length
  let w0 ← show_write pre size count 0
  let (ys, ws) ← progressbar_loop pre size count 0 iterable
  .ok (ys, w0 :: ws)

theorem getLast?_cons_ne_nil {α : Type} (a : α) {l : List α} (h : l ≠ []) :
    (a :: l).getLast? = l.getLast? := by
  cases l with
  | nil => exact absurd rfl h
  | cons b m => simp [List.getLast?_cons_cons]

theorem progressbar_loop_ok {α : Type} (pre : String) (size count : ℕ) (hc : count ≠ 0)
    (i : ℕ) (l : List α) :
    ∃ ws, progressbar_loop pre size count i l = .ok (l, ws) ∧
      ws.length = l.length + 1 ∧ ws.getLast? = some "\n" := by
  induction l generalizing i with
  | nil => exact ⟨["\n"], rfl, rfl, rfl⟩
  | cons x rest ih =>
    obtain ⟨ws, hws, hlen, hlast⟩ := ih (i + 1)
    have hne : ws ≠ [] := by
      intro hnil; rw [hnil] at hlen; simp at hlen
    refine ⟨show_str pre size count (i + 1) :: ws, ?_, by simp [hlen], ?_⟩
    · simp [progressbar_loop, show_write, hc, hws]; rfl
    · rw [getLast?_cons_ne_nil _ hne]; exact hlast

/-- C4: the spec requires the zero-length case to complete without failing,
but the very first `show(0)` divides by `count = len(iterable) = 0`, so
iterating the generator over an empty sequence raises `ZeroDivisionError`
before yielding anything. -/
theorem progressbar_empty_raises :
    progressbar ([] : List ℕ) "" 50 = .error "ZeroDivisionError: division by zero" := rfl

/-- C8: over a nonempty sequence, the generator yields exactly the input items
in order, makes at least N+1 writes (in fact N+2: `show(0)`, one `show(i+1)`
per item, and the closing newline), and the final write is the newline. -/
theorem progressbar_yields_items_and_writes {α : Type} (items : List α) (pre : String)
    (size : ℕ) (h : items ≠ []) :
    ∃ ws, progressbar items pre size = .ok (items, ws) ∧
      items.length + 1 ≤ ws.length ∧ ws.getLast? = some "\n" := by
  have hc : items.length ≠ 0 := fun hz => h (List.length_eq_zero.mp hz)
  obtain ⟨ws, hws, hlen, hlast⟩ := progressbar_loop_ok pre size items.length hc 0 items
  have hne : ws ≠ [] := by
    intro hnil; rw [hnil] at hlen; simp at hlen
  refine ⟨show_str pre size items.length 0 :: ws, ?_, ?_, ?_⟩
  · simp [progressbar, show_write, hc, hws]; rfl
  · simp only [List.length_cons, hlen]; omega
  · rw [getLast?_cons_ne_nil _ hne]; exact hlast

/-- Witness for C8 at the concrete three-item sequence [10, 20, 30]. -/
theorem progressbar_yields_items_and_writes_witness :
    ∃ ws, progressbar [10, 20, 30] "" 50 = .ok ([10, 20, 30], ws) ∧
      [10, 20, 30].length + 1 ≤ ws.length ∧ ws.getLast? = some "\n" :=
  progressbar_yields_items_and_writes [10, 20, 30] "" 50 (by simp)

/-! ### `data_by_region` (src lines 29-49)

The fetched CSV is modelled as a list of rows; the CSV counters are integers.
The pandas float column `tasso_positività` (the Lean field drops the accent,
which is not a valid identifier character here) is modelled by `PVal`, a
rational extended with the two infinities and NaN, since its division can hit
a zero denominator.  Python exceptions are modelled with `Except String`.
-/

/-- A pandas float: a finite (here rational) value, an infinity, or NaN. -/
inductive PVal where
  | val (q : ℚ)
  | posInf
  | negInf
  | nan
deriving DecidableEq, Repr

/-- Pandas column division (src line 47): the integer columns are divided as
floats, so a zero denominator yields +inf, -inf or NaN (for 0/0) rather than
raising. -/
def pandas_div (num den : ℤ) : PVal :=
  if den = 0 then
    if 0 < num then .posInf else if num < 0 then .negInf else .nan
  else .val ((num : ℚ) / den)

/-- Python's `str.title()`, ASCII model: the first character of every run of
alphabetic characters is upper-cased, the others lower-cased. -/
def pyTitleAux : Bool → List Char → List Char
  | _, [] => []
  | prevAlpha, c :: cs =>
    if c.isAlpha then
      (if prevAlpha then c.toLower else c.toUpper) :: pyTitleAux true cs
    else c :: pyTitleAux false cs

/-- Python's `str.title()` on a string. -/
def pyTitle (s : String) : String :=
  String.mk (pyTitleAux false s.data)

/-- `np.diff` on a 1-D integer array: consecutive differences `a[i+1] - a[i]`,
one entry shorter than the input. -/
def np_diff (xs : List ℤ) : List ℤ :=
  List.zipWith (· - ·) xs.tail xs

/-- `np.insert(arr, obj, v)` on a 1-D integer array: insert `v` before
position `obj`; numpy raises `IndexError` when `obj` exceeds the array
length (as happens for `obj = 1` on an empty array). -/
def np_insert (xs : List ℤ) (obj : ℕ) (v : ℤ) : Except String (List ℤ) :=
  if obj ≤ xs.length then .ok (xs.take obj ++ v :: xs.drop obj)
  else .error "IndexError: index out of bounds for axis 0"

/-- One row of the national CSV, restricted to the columns `data_by_region`
keeps and the claims touch.  The `stato`, `codice_regione`, `lat` and `long`
columns are dropped by the source (src line 39) and omitted here; the `data`
(date) column is only reformatted for display, plays no role in any claim,
and is omitted as well. -/
structure Row where
  denominazione_regione : String
  deceduti : ℤ
  tamponi_test_molecolare : ℤ
  nuovi_positivi : ℤ
  ingressi_terapia_intensiva : ℤ
deriving DecidableEq, Repr

/-- A row of the table `data_by_region` returns: the kept CSV columns plus the
three derived columns of src lines 43-47. -/
structure RegionRow where
  denominazione_regione : String
  deceduti : ℤ
  tamponi_test_molecolare : ℤ
  nuovi_positivi : ℤ
  ingressi_terapia_intensiva : ℤ
  incremento_deceduti : ℤ
  incremento_tamponi_molecolari : ℤ
  tasso_positivita : PVal
deriving DecidableEq, Repr

/-- `data_by_region` (src lines 29-49): filter the national table to the rows
whose region equals the title-cased input, then append the derived columns:
`np.insert(np.diff(deceduti), 1, 0)`, the same for the molecular-swab column,
and the elementwise quotient `nuovi_positivi / incremento_tamponi_molecolari`. -/
def data_by_region (ts : List Row) (region_name : String) :
    Except String (List RegionRow) := do
  let regione := ts.filter (fun r => r.denominazione_regione == pyTitle region_name)
  let incDecCol ← np_insert (np_diff (regione.map (·.deceduti))) 1 0
  let incTamCol ← np_insert (np_diff (regione.map (·.tamponi_test_molecolare))) 1 0
  .ok ((regione.zip (incDecCol.zip incTamCol)).map (fun p =>
    { denominazione_regione := p.1.denominazione_regione
      deceduti := p.1.deceduti
      tamponi_test_molecolare := p.1.tamponi_test_molecolare
      nuovi_positivi := p.1.nuovi_positivi
      ingressi_terapia_intensiva := p.1.ingressi_terapia_intensiva
      incremento_deceduti := p.2.1
      incremento_tamponi_molecolari := p.2.2
      tasso_positivita := pandas_div p.1.nuovi_positivi p.2.2 }))

/-- The synthetic 10-day series of the spec's worked example, as rows of the
national table for a region "Testlandia": `deceduti` is the cumulative series
[0,1,3,3,6,6,6,10,10,12]; the other counters are arbitrary. -/
def exampleRows : List Row :=
  [⟨"Testlandia", 0, 0, 1, 0⟩, ⟨"Testlandia", 1, 10, 1, 0⟩, ⟨"Testlandia", 3, 20, 1, 0⟩,
   ⟨"Testlandia", 3, 30, 1, 0⟩, ⟨"Testlandia", 6, 40, 1, 0⟩, ⟨"Testlandia", 6, 50, 1, 0⟩,
   ⟨"Testlandia", 6, 60, 1, 0⟩, ⟨"Testlandia", 10, 70, 1, 0⟩, ⟨"Testlandia", 10, 80, 1, 0⟩,
   ⟨"Testlandia", 12, 90, 1, 0⟩]

/-- C1: `np.insert(np.diff(deceduti), 1, 0)` inserts the 0 before position 1,
not position 0, so on the spec's example the derived delta column is
[1,0,2,0,3,0,0,4,0,2]: its first value is `deaths[1] - deaths[0]`, not 0, and
its second value is the spurious 0.  This contradicts the source's own comment
"insert a 0 for the first day" (src line 44) as well as the spec's
[0,1,2,0,3,0,0,4,0,2]. -/
theorem incremento_deceduti_example :
    (data_by_region exampleRows "testlandia").map (fun rs => rs.map (·.incremento_deceduti))
      = .ok [1, 0, 2, 0, 3, 0, 0, 4, 0, 2] ∧
    ([1, 0, 2, 0, 3, 0, 0, 4, 0, 2] : List ℤ) ≠ [0, 1, 2, 0, 3, 0, 0, 4, 0, 2] :=
  ⟨rfl, by decide⟩

/-- A two-row national table containing only Lombardia. -/
def lombardiaRows : List Row :=
  [⟨"Lombardia", 100, 1000, 5, 2⟩, ⟨"Lombardia", 103, 1100, 7, 1⟩]

/-- C2 counterexample: "atlantis" title-cases to "Atlantis", which matches no
row, so the filtered table is empty — but `data_by_region` then raises
(np.insert at position 1 of the empty diff array is out of bounds) instead of
returning the empty table the claim promises. -/
theorem unknown_region_raises :
    data_by_region lombardiaRows "atlantis" = .error "IndexError: index out of bounds for axis 0" ∧
    (Except.error "IndexError: index out of bounds for axis 0" : Except String (List RegionRow))
      ≠ .ok [] :=
  ⟨rfl, by simp⟩

/-- C2 amended: when the title-cased region name matches no row the filter
step yields the empty table, and `data_by_region` then raises an IndexError
while deriving the death-delta column — it does not return normally. -/
theorem unknown_region_empty_filter_raises (ts : List Row) (name : String)
    (h : ts.filter (fun r => r.denominazione_regione == pyTitle name) = []) :
    data_by_region ts name = .error "IndexError: index out of bounds for axis 0" := by
  unfold data_by_region
  rw [h]
  rfl

/-- Witness for the amended C2 at the concrete table and name. -/
theorem unknown_region_empty_filter_raises_witness :
    data_by_region lombardiaRows "atlantis" = .error "IndexError: index out of bounds for axis 0" :=
  unknown_region_empty_filter_raises lombardiaRows "atlantis" rfl

/-- A three-day national table for a region "Testonia" whose cumulative swab
column is constant, so every derived daily swab delta is 0. -/
def positivityRows : List Row :=
  [⟨"Testonia", 0, 100, 5, 0⟩, ⟨"Testonia", 1, 100, 7, 0⟩, ⟨"Testonia", 2, 100, 0, 0⟩]

/-- C9 counterexample: on `positivityRows` every daily swab delta is 0, yet
the rows with 5 and 7 new positives get a positivity ratio of +inf — pandas
float division by zero — and NaN appears only for the 0/0 row, refuting the
claim that every zero-delta row holds NaN. -/
theorem tasso_positivita_counterexample :
    (data_by_region positivityRows "testonia").map
        (fun rs => rs.map (fun r => (r.incremento_tamponi_molecolari, r.tasso_positivita)))
      = .ok [(0, .posInf), (0, .posInf), (0, .nan)] ∧
    PVal.posInf ≠ PVal.nan :=
  ⟨rfl, by decide⟩

theorem except_ok_bind {ε α β : Type} (a : α) (f : α → Except ε β) :
    (Except.ok a : Except ε α) >>= f = f a := rfl

theorem except_error_bind {ε α β : Type} (e : ε) (f : α → Except ε β) :
    (Except.error e : Except ε α) >>= f = Except.error e := rfl

/-- C9 amended: the division raises no error, and in a returned row whose
daily swab delta is zero the positivity ratio is +inf when the new-positives
count is positive, -inf when it is negative, and NaN exactly when it is also
zero. -/
theorem tasso_positivita_div_by_zero (ts : List Row) (name : String)
    (rs : List RegionRow) (hok : data_by_region ts name = .ok rs)
    (r : RegionRow) (hr : r ∈ rs) (hz : r.incremento_tamponi_molecolari = 0) :
    r.tasso_positivita = if 0 < r.nuovi_positivi then PVal.posInf
      else if r.nuovi_positivi < 0 then PVal.negInf else PVal.nan := by
  simp only [data_by_region] at hok
  cases h1 : np_insert (np_diff ((ts.filter
      (fun r => r.denominazione_regione == pyTitle name)).map (·.deceduti))) 1 0 with
  | error e => rw [h1, except_error_bind] at hok; exact absurd hok (by simp)
  | ok incDec =>
    rw [h1, except_ok_bind] at hok
    cases h2 : np_insert (np_diff ((ts.filter
        (fun r => r.denominazione_regione == pyTitle name)).map
          (·.tamponi_test_molecolare))) 1 0 with
    | error e => rw [h2, except_error_bind] at hok; exact absurd hok (by simp)
    | ok incTam =>
      rw [h2, except_ok_bind, Except.ok.injEq] at hok
      subst hok
      obtain ⟨p, hp, rfl⟩ := List.mem_map.mp hr
      simp only [] at hz ⊢
      simp [pandas_div, hz]

/-- The middle output row of `data_by_region positivityRows "testonia"`,
used by the C9 witness. -/
def testoniaRow1 : RegionRow := ⟨"Testonia", 1, 100, 7, 0, 0, 0, .posInf⟩

/-- Witness for the amended C9 at the concrete table: the zero-swab-delta row
with 7 new positives carries +inf. -/
theorem tasso_positivita_div_by_zero_witness :
    testoniaRow1.tasso_positivita = if 0 < testoniaRow1.nuovi_positivi then PVal.posInf
      else if testoniaRow1.nuovi_positivi < 0 then PVal.negInf else PVal.nan :=
  tasso_positivita_div_by_zero positivityRows "testonia"
    [⟨"Testonia", 0, 100, 5, 0, 1, 0, .posInf⟩, testoniaRow1,
     ⟨"Testonia", 2, 100, 0, 0, 1, 0, .nan⟩]
    rfl testoniaRow1 (by simp) rfl

/-! ### `plot_smooth` (src lines 51-105)

Two aspects of `plot_smooth` are claim-relevant and modelled here: the
`type`-selector dispatch with its warning/exception behaviour (src lines
65-88), and the forward-backward exponential smoothing (src lines 86-88).
The actual chart rendering is external matplotlib I/O and stays outside the
model.
-/

/-- Exponential moving average with the pandas defaults of
`Series.ewm(span=smooth_window).mean()` (`adjust=True`):
`alpha = 2/(span+1)`, and entry t is the quotient of the running weighted
sums `sum_i (1-alpha)^i * x_(t-i)` and `sum_i (1-alpha)^i`. -/
def ewmAux (a : ℚ) : ℚ → ℚ → List ℚ → List ℚ
  | _, _, [] => []
  | num, den, x :: rest =>
    let num2 := x + (1 - a) * num
    let den2 := 1 + (1 - a) * den
    num2 / den2 :: ewmAux a num2 den2 rest

/-- `Series.ewm(span=span).mean()` on the positional values of a series. -/
def ewm_mean (span : ℕ) (xs : List ℚ) : List ℚ :=
  ewmAux (2 / (span + 1 : ℚ)) 0 0 xs

/-- A pandas Series as `plot_smooth` uses it: positional values carrying an
index.  `[::-1]` reverses both; `ewm(...).mean()` works positionally on the
values and keeps the index. -/
structure Series where
  index : List String
  values : List ℚ
deriving Repr

/-- Pandas `series[::-1]`. -/
def seriesRev (s : Series) : Series := ⟨s.index.reverse, s.values.reverse⟩

/-- Pandas `series.ewm(span=span).mean()`. -/
def seriesEwm (span : ℕ) (s : Series) : Series := ⟨s.index, ewm_mean span s.values⟩

/-- The smoothed series `plot_smooth` plots (src lines 87-88):
`f_ema = region[column].ewm(span=smooth_window).mean()` followed by
`fb_ema = f_ema[::-1].ewm(span=smooth_window).mean()[::-1]`. -/
def fb_ema (smooth_window : ℕ) (s : Series) : Series :=
  seriesRev (seriesEwm smooth_window (seriesRev (seriesEwm smooth_window s)))

/-- Modelled from the spec's words for the refinement claim C7: "Compute a
forward exponential moving average over the full series with the given span,
then a backward exponential moving average of the forward result (reverse,
smooth, reverse again)". -/
def spec_forward_backward_ema (span : ℕ) (xs : List ℚ) : List ℚ :=
  (ewm_mean span ((ewm_mean span xs).reverse)).reverse

/-- C7: the smoothed series `plot_smooth` computes is exactly the spec's
forward-backward EMA — forward EMA over the full series, reverse, the same
EMA again, reverse back — and the series index is preserved, so the smoothed
values remain aligned with their dates. -/
theorem fb_ema_eq_spec (span : ℕ) (s : Series) :
    (fb_ema span s).values = spec_forward_backward_ema span s.values ∧
    (fb_ema span s).index = s.index := by
  refine ⟨rfl, ?_⟩
  simp [fb_ema, seriesRev, seriesEwm]

/-- The warning `plot_smooth` prints for an unrecognised `type` (src line 84). -/
def plot_smooth_warning : String :=
  "I\x27m sorry, I don\x27t understand; remember that the allowed types are: positivi, deceduti, TI and positività."

/-- The `type` dispatch of `plot_smooth` (src lines 65-88): a recognised
selector (or the `None` default) binds a display title and a column name; an
unrecognised one prints the line-84 warning but binds no `column` and does not
return early, so line 87 (`region[column].ewm(...)`) raises
`UnboundLocalError`.  The result is the list of printed warnings together
with either the bound (title, column) pair or the raised exception. -/
def plot_smooth (type : Option String) :
    List String × Except String (String × String) :=
  if type = some "positivi" ∨ type = none then
    ([], .ok ("nuovi positivi", "nuovi_positivi"))
  else if type = some "deceduti" then
    ([], .ok ("incremento deceduti", "incremento_deceduti"))
  else if type = some "TI" then
    ([], .ok ("ingressi in TI", "ingressi_terapia_intensiva"))
  else if type = some "positività" then
    ([], .ok ("tasso di positività", "tasso_positivita"))
  else
    ([plot_smooth_warning],
      .error "UnboundLocalError: local variable referenced before assignment")

/-- C3: for the unrecognised selector "foo", `plot_smooth` does print the
human-readable warning — but it then raises `UnboundLocalError` at the
smoothing line, because the warning branch neither binds `column` nor returns
early; the claim that it returns normally without raising is contradicted. -/
theorem plot_smooth_unknown_type_raises :
    plot_smooth (some "foo") = ([plot_smooth_warning],
      .error "UnboundLocalError: local variable referenced before assignment") := rfl

end HelperFunc
